import Mathlib

/-!
Shallow embedding of `src/salesforce_api_proxy.py`, a Flask proxy that
forwards browser requests to the Salesforce REST API. Each Flask handler
becomes a pure Lean function from the inbound JSON payload and the outcome
of the (at most one) outbound HTTP call to the HTTP response it produces,
paired with the list of outbound calls it issued. The outcome of the
outbound call is an explicit parameter (`TransportResult`), since the
handler's behaviour is a pure function of it.
-/

namespace SfProxy

/-- JSON values, the payloads Flask's `request.get_json()` produces and
`jsonify` consumes. Numbers are modelled as integers (no claim involves
fractional numbers). -/
inductive Json where
  | null
  | bool (b : Bool)
  | num (n : Int)
  | str (s : String)
  | arr (xs : List Json)
  | obj (fields : List (String × Json))
deriving Repr

/-- Python truthiness of a JSON value (`if not data` in the handlers):
`None`, `False`, `0`, `""`, `[]` and `{}` are falsy. -/
def pyTruthy : Json → Bool
  | .null => false
  | .bool b => b
  | .num n => n != 0
  | .str s => s != ""
  | .arr xs => !xs.isEmpty
  | .obj fs => !fs.isEmpty

/-- Truthiness of `request.get_json()`, which is `None` (falsy) when the
request carries no JSON body. -/
def pyTruthyO : Option Json → Bool
  | none => false
  | some j => pyTruthy j

/-- Python `key in data` for a dict payload. On a non-dict the handlers
would either fail validation or raise; no claim involves a non-dict
payload, and a non-object here reports `false` (failing validation), which
matches Python for list and string payloads. -/
def hasKey (j : Json) (k : String) : Bool :=
  match j with
  | .obj fs => fs.any (fun p => p.1 == k)
  | _ => false

/-- Python `data[key]` for a dict payload (first binding wins; the payloads
built by `request.get_json()` never repeat a key). Returns `null` when the
key is absent; the handlers only call this after a presence check. -/
def jGet (j : Json) (k : String) : Json :=
  match j with
  | .obj fs => (((fs.find? (fun p => p.1 == k)).map (fun p => p.2)).getD .null)
  | _ => .null

def hasKeyO (d : Option Json) (k : String) : Bool :=
  hasKey (d.getD .null) k

def jGetO (d : Option Json) (k : String) : Json :=
  jGet (d.getD .null) k

/-- Python `str()` of a JSON value, as used by the f-strings that build
URLs and headers. Every claim applies it to string fields only; the
list/dict cases abbreviate Python's `repr`-style rendering and are not
relied on by any theorem. -/
def pyStr : Json → String
  | .str s => s
  | .num n => toString n
  | .bool true => "True"
  | .bool false => "False"
  | .null => "None"
  | .arr _ => "<list>"
  | .obj _ => "<dict>"

/-- Upstream HTTP response as the `requests` library delivers it:
`status`, the body text (`response.text`; `response.content` is truthy iff
`text` is nonempty), and the result of `response.json()` (`some` exactly
when `text` parses as JSON). -/
structure SfResponse where
  status : Nat
  text : String
  jsonBody : Option Json
deriving Repr

/-- Transport-level exception raised by `requests`. All such exceptions are
`RequestException`s; `isProxyError` marks `requests.exceptions.ProxyError`
and `isTimeout` marks `requests.exceptions.Timeout` (the two are disjoint
subclasses in practice). `typeName` is Python's `type(e).__name__`. -/
structure RequestExc where
  isProxyError : Bool
  isTimeout : Bool
  msg : String
  typeName : String
deriving Repr

/-- What the single outbound `requests` call yields: a response, or a
raised transport exception. -/
inductive TransportResult where
  | ok (resp : SfResponse)
  | exc (e : RequestExc)
deriving Repr

/-- Outbound HTTP call as the handlers build it. `body` models the `json=`
keyword argument: `none` when the handler passes no such argument, `some v`
when it passes `v` (Python `None` is `some .null`). -/
structure OutboundCall where
  method : String
  url : String
  headers : List (String × String)
  params : List (String × String)
  body : Option Json
deriving Repr

/-- Body of the proxy's own response: a `jsonify`d value, or raw text (the
generic route returns `response.text` directly when the upstream success
body is not JSON). -/
inductive Body where
  | json (j : Json)
  | text (s : String)
deriving Repr

/-- HTTP response the proxy returns: status code and body. -/
structure HttpOut where
  status : Nat
  body : Body
deriving Repr

/-- Result of running a handler: the response sent to the caller and the
list of outbound HTTP calls made (empty or a singleton). -/
structure HandlerResult where
  response : HttpOut
  calls : List OutboundCall
deriving Repr

/-- Abbreviation for the ubiquitous single-key error body. -/
def errJson (msg : String) : Json :=
  Json.obj [("error", Json.str msg)]

def SALESFORCE_API_VERSION : String := "v58.0"

/-- Header dict built identically in every handler:
`Authorization: Bearer <cred>`, `Content-Type`/`Accept: application/json`. -/
def bearerHeaders (cred : Json) : List (String × String) :=
  [("Authorization", "Bearer " ++ pyStr cred),
   ("Content-Type", "application/json"),
   ("Accept", "application/json")]

/-- Handler for `POST /api/query` (`proxy_query` in the source). The
outbound `requests.get` sits inside an inner `try` whose clauses catch
`ProxyError` (403) and then every other `RequestException` (500) — which
includes `Timeout`, so the outer `except Timeout` returning 504 is
unreachable on this route. Success requires upstream status exactly 200.
When `response.json()` fails on the success path the raised decode error
is a `RequestException` caught by the outer handler (500); its message is
abbreviated here, no theorem depends on it. -/
def proxy_query (data : Option Json) (tr : TransportResult) : HandlerResult :=
  if !pyTruthyO data || !hasKeyO data "query" || !hasKeyO data "instanceUrl" ||
      !hasKeyO data "sessionId" then
    ⟨⟨400, .json (errJson "Missing required fields: query, instanceUrl, sessionId")⟩, []⟩
  else
    let d := data.getD .null
    let sf_url := pyStr (jGet d "instanceUrl") ++ "/services/data/" ++
      SALESFORCE_API_VERSION ++ "/query/"
    let call : OutboundCall :=
      ⟨"GET", sf_url, bearerHeaders (jGet d "sessionId"),
       [("q", pyStr (jGet d "query"))], none⟩
    match tr with
    | .exc e =>
      if e.isProxyError then
        ⟨⟨403, .json (Json.obj
          [("error", .str "External API access restricted"),
           ("message", .str "PythonAnywhere free tier doesn\x27t allow external HTTPS requests to Salesforce. You need to upgrade to a paid plan."),
           ("details", .str e.msg),
           ("solution", .str "Upgrade to PythonAnywhere Hacker plan ($5/month) to enable external API calls")])⟩, [call]⟩
      else
        ⟨⟨500, .json (Json.obj
          [("error", .str "Network error"),
           ("message", .str e.msg),
           ("type", .str e.typeName)])⟩, [call]⟩
    | .ok resp =>
      if resp.status == 200 then
        match resp.jsonBody with
        | some j => ⟨⟨200, .json j⟩, [call]⟩
        | none => ⟨⟨500, .json (errJson "Request error: invalid JSON in response body")⟩, [call]⟩
      else
        ⟨⟨resp.status, .json (Json.obj
          [("error", .str ("Salesforce API error: " ++ toString resp.status)),
           ("details", .str resp.text)])⟩, [call]⟩

/-- Handler for `POST /api/describe/<object_name>` (`proxy_describe`).
Identical structure to `proxy_query`: inner `try` catching `ProxyError`
(403) then any `RequestException` (500, which swallows `Timeout`), success
only on upstream status 200. -/
def proxy_describe (object_name : String) (data : Option Json)
    (tr : TransportResult) : HandlerResult :=
  if !pyTruthyO data || !hasKeyO data "instanceUrl" || !hasKeyO data "sessionId" then
    ⟨⟨400, .json (errJson "Missing required fields: instanceUrl, sessionId")⟩, []⟩
  else
    let d := data.getD .null
    let sf_url := pyStr (jGet d "instanceUrl") ++ "/services/data/" ++
      SALESFORCE_API_VERSION ++ "/sobjects/" ++ object_name ++ "/describe/"
    let call : OutboundCall :=
      ⟨"GET", sf_url, bearerHeaders (jGet d "sessionId"), [], none⟩
    match tr with
    | .exc e =>
      if e.isProxyError then
        ⟨⟨403, .json (Json.obj
          [("error", .str "External API access restricted"),
           ("message", .str "PythonAnywhere free tier doesn\x27t allow external HTTPS requests to Salesforce. You need to upgrade to a paid plan."),
           ("details", .str e.msg),
           ("solution", .str "Upgrade to PythonAnywhere Hacker plan ($5/month) to enable external API calls")])⟩, [call]⟩
      else
        ⟨⟨500, .json (Json.obj
          [("error", .str "Network error"),
           ("message", .str e.msg),
           ("type", .str e.typeName)])⟩, [call]⟩
    | .ok resp =>
      if resp.status == 200 then
        match resp.jsonBody with
        | some j => ⟨⟨200, .json j⟩, [call]⟩
        | none => ⟨⟨500, .json (errJson "Request error: invalid JSON in response body")⟩, [call]⟩
      else
        ⟨⟨resp.status, .json (Json.obj
          [("error", .str ("Salesforce API error: " ++ toString resp.status)),
           ("details", .str resp.text)])⟩, [call]⟩

/-- Handler for `POST /api/sobjects/<object_name>` (`proxy_create_record`).
Requires `instanceUrl`, `sessionId` and `recordData`; the outbound POST is
not wrapped in an inner `try`, so the outer handlers apply: `Timeout` maps
to 504 and any other `RequestException` (including `ProxyError`) to 500.
Success on upstream status 200 or 201. -/
def proxy_create_record (object_name : String) (data : Option Json)
    (tr : TransportResult) : HandlerResult :=
  if !pyTruthyO data || !hasKeyO data "instanceUrl" || !hasKeyO data "sessionId" ||
      !hasKeyO data "recordData" then
    ⟨⟨400, .json (errJson "Missing required fields: instanceUrl, sessionId, recordData")⟩, []⟩
  else
    let d := data.getD .null
    let sf_url := pyStr (jGet d "instanceUrl") ++ "/services/data/" ++
      SALESFORCE_API_VERSION ++ "/sobjects/" ++ object_name ++ "/"
    let call : OutboundCall :=
      ⟨"POST", sf_url, bearerHeaders (jGet d "sessionId"), [],
       some (jGet d "recordData")⟩
    match tr with
    | .exc e =>
      if e.isTimeout then
        ⟨⟨504, .json (errJson "Request timeout")⟩, [call]⟩
      else
        ⟨⟨500, .json (errJson ("Request error: " ++ e.msg))⟩, [call]⟩
    | .ok resp =>
      if resp.status == 200 || resp.status == 201 then
        match resp.jsonBody with
        | some j => ⟨⟨200, .json j⟩, [call]⟩
        | none => ⟨⟨500, .json (errJson "Request error: invalid JSON in response body")⟩, [call]⟩
      else
        ⟨⟨resp.status, .json (Json.obj
          [("error", .str ("Salesforce API error: " ++ toString resp.status)),
           ("details", .str resp.text)])⟩, [call]⟩

/-- Inbound HTTP method of `/api/sobjects/<object_name>/<record_id>`
(`OPTIONS` preflight is handled before the body and not modelled). -/
inductive RecordMethod where
  | get
  | patch
  | delete
deriving Repr

/-- String form of the inbound method, used to pick the outbound call. -/
def RecordMethod.name : RecordMethod → String
  | .get => "GET"
  | .patch => "PATCH"
  | .delete => "DELETE"

/-- Handler for `GET|PATCH|DELETE /api/sobjects/<object_name>/<record_id>`
(`proxy_record_operations`). `request.get_json() or {}` replaces a falsy
payload with an empty dict; required fields are `instanceUrl` and
`sessionId` only — for PATCH, `recordData` defaults to `{}` via
`data.get('recordData', {})`. No inner `try`: `Timeout` maps to 504, other
`RequestException`s to 500. Success on upstream 200 or 204: a nonempty
body is passed through as JSON, an empty body yields `{"success": true}`. -/
def proxy_record_operations (object_name record_id : String)
    (method : RecordMethod) (data : Option Json) (tr : TransportResult) :
    HandlerResult :=
  let d := if pyTruthyO data then data.getD .null else Json.obj []
  if !hasKey d "instanceUrl" || !hasKey d "sessionId" then
    ⟨⟨400, .json (errJson "Missing required fields: instanceUrl, sessionId")⟩, []⟩
  else
    let sf_url := pyStr (jGet d "instanceUrl") ++ "/services/data/" ++
      SALESFORCE_API_VERSION ++ "/sobjects/" ++ object_name ++ "/" ++ record_id
    let call : OutboundCall :=
      ⟨method.name, sf_url, bearerHeaders (jGet d "sessionId"), [],
       match method with
       | .patch => some (if hasKey d "recordData" then jGet d "recordData" else Json.obj [])
       | _ => none⟩
    match tr with
    | .exc e =>
      if e.isTimeout then
        ⟨⟨504, .json (errJson "Request timeout")⟩, [call]⟩
      else
        ⟨⟨500, .json (errJson ("Request error: " ++ e.msg))⟩, [call]⟩
    | .ok resp =>
      if resp.status == 200 || resp.status == 204 then
        if resp.text != "" then
          match resp.jsonBody with
          | some j => ⟨⟨200, .json j⟩, [call]⟩
          | none => ⟨⟨500, .json (errJson "Request error: invalid JSON in response body")⟩, [call]⟩
        else
          ⟨⟨200, .json (Json.obj [("success", .bool true)])⟩, [call]⟩
      else
        ⟨⟨resp.status, .json (Json.obj
          [("error", .str ("Salesforce API error: " ++ toString resp.status)),
           ("details", .str resp.text)])⟩, [call]⟩

/-- Python `str.rstrip('/')`: drop every trailing slash. -/
def rstripSlash (s : String) : String :=
  String.mk ((s.data.reverse.dropWhile (fun c => c == '/')).reverse)

/-- Python `str.upper()` restricted to ASCII, which covers every HTTP
method name the generic route compares against. -/
def pyUpper (s : String) : String :=
  String.mk (s.data.map Char.toUpper)

/-- Outcome of the generic route's method dispatch and outbound call,
shared by the four supported methods (`general_proxy` lines 385-404 plus
the outer `except` clauses): success on upstream 200 or 201 with JSON
passthrough (raw text when the body is not JSON); otherwise an error
object carrying the upstream status and its body as parsed JSON when
parseable, else as raw text; `Timeout` maps to 408 and any other
`RequestException` to 500. -/
def generalDispatch (call : OutboundCall) (tr : TransportResult) : HandlerResult :=
  match tr with
  | .exc e =>
    if e.isTimeout then
      ⟨⟨408, .json (errJson "Request timeout")⟩, [call]⟩
    else
      ⟨⟨500, .json (errJson ("Request failed: " ++ e.msg))⟩, [call]⟩
  | .ok resp =>
    if resp.status == 200 || resp.status == 201 then
      match resp.jsonBody with
      | some j => ⟨⟨200, .json j⟩, [call]⟩
      | none => ⟨⟨200, .text resp.text⟩, [call]⟩
    else
      match resp.jsonBody with
      | some j =>
        ⟨⟨resp.status, .json (Json.obj
          [("error", .str "Salesforce API error"),
           ("status_code", .num resp.status),
           ("details", j)])⟩, [call]⟩
      | none =>
        ⟨⟨resp.status, .json (Json.obj
          [("error", .str "Salesforce API error"),
           ("status_code", .num resp.status),
           ("message", .str resp.text)])⟩, [call]⟩

/-- Handler for `POST /api/proxy` (`general_proxy`). Requires
`instance_url`, `endpoint` and `auth_token`; `method` defaults to `'GET'`
and is upper-cased before dispatch (a non-string `method` would raise
`AttributeError` on `.upper()`, caught by the outer `except Exception` as
a 500 whose exact message no theorem relies on). The URL is
`instance_url.rstrip('/') + endpoint`. `body` is `data.get('body')`
(`None`, i.e. JSON null, when absent); GET and DELETE pass no `json=`
argument. A method other than GET/POST/PUT/DELETE is rejected with 400
before any outbound call. -/
def general_proxy (data : Option Json) (tr : TransportResult) : HandlerResult :=
  if !pyTruthyO data || !hasKeyO data "instance_url" || !hasKeyO data "endpoint" ||
      !hasKeyO data "auth_token" then
    ⟨⟨400, .json (errJson "Missing required fields: instance_url, endpoint, auth_token")⟩, []⟩
  else
    let d := data.getD .null
    match (if hasKey d "method" then jGet d "method" else Json.str "GET") with
    | .str ms =>
      let method := pyUpper ms
      let url := rstripSlash (pyStr (jGet d "instance_url")) ++ pyStr (jGet d "endpoint")
      let headers := bearerHeaders (jGet d "auth_token")
      let body := jGet d "body"
      if method == "GET" then
        generalDispatch ⟨"GET", url, headers, [], none⟩ tr
      else if method == "POST" then
        generalDispatch ⟨"POST", url, headers, [], some body⟩ tr
      else if method == "PUT" then
        generalDispatch ⟨"PUT", url, headers, [], some body⟩ tr
      else if method == "DELETE" then
        generalDispatch ⟨"DELETE", url, headers, [], none⟩ tr
      else
        ⟨⟨400, .json (errJson ("Unsupported HTTP method: " ++ method))⟩, []⟩
    | _ =>
      ⟨⟨500, .json (errJson "Unexpected error: method value is not a string")⟩, []⟩

/-! Helper lemmas shared by the claim theorems. -/

/-- A payload with a key present is a nonempty dict, hence truthy. -/
theorem pyTruthyO_of_hasKeyO (d : Option Json) (k : String)
    (h : hasKeyO d k = true) : pyTruthyO d = true := by
  rcases d with _ | j
  · simp [hasKeyO, hasKey] at h
  · rcases j with _ | b | n | s | xs | fs <;> simp [hasKeyO, hasKey] at h
    rcases fs with _ | ⟨p, rest⟩
    · simp at h
    · simp [pyTruthyO, pyTruthy]

/-- A key whose lookup is a string is present. -/
theorem hasKey_of_jGet_str (j : Json) (k s : String)
    (h : jGet j k = Json.str s) : hasKey j k = true := by
  rcases j with _ | b | n | t | xs | fs <;> simp [jGet] at h
  rcases hf : fs.find? (fun p => p.1 == k) with _ | p
  · rw [hf] at h
    simp at h
  · have hmem := List.mem_of_find?_eq_some hf
    have hpk := List.find?_some hf
    show fs.any (fun p => p.1 == k) = true
    exact List.any_eq_true.mpr ⟨p, hmem, hpk⟩

/-- C1: every handler checks its required fields first; when one is absent
the response is HTTP 400 with the exact `Missing required fields` body
naming that operation's required fields, and no outbound call is made.
The required sets are: query route `query, instanceUrl, sessionId`;
describe and record get/update/delete `instanceUrl, sessionId`; create
record `instanceUrl, sessionId, recordData`; generic proxy `instance_url,
endpoint, auth_token`. -/
theorem c1_missing_fields_reject :
    (∀ (data : Option Json) (tr : TransportResult),
      (hasKeyO data "query" = false ∨ hasKeyO data "instanceUrl" = false ∨
        hasKeyO data "sessionId" = false) →
      proxy_query data tr =
        ⟨⟨400, .json (errJson "Missing required fields: query, instanceUrl, sessionId")⟩, []⟩) ∧
    (∀ (object_name : String) (data : Option Json) (tr : TransportResult),
      (hasKeyO data "instanceUrl" = false ∨ hasKeyO data "sessionId" = false) →
      proxy_describe object_name data tr =
        ⟨⟨400, .json (errJson "Missing required fields: instanceUrl, sessionId")⟩, []⟩) ∧
    (∀ (object_name : String) (data : Option Json) (tr : TransportResult),
      (hasKeyO data "instanceUrl" = false ∨ hasKeyO data "sessionId" = false ∨
        hasKeyO data "recordData" = false) →
      proxy_create_record object_name data tr =
        ⟨⟨400, .json (errJson "Missing required fields: instanceUrl, sessionId, recordData")⟩, []⟩) ∧
    (∀ (object_name record_id : String) (m : RecordMethod) (data : Option Json)
        (tr : TransportResult),
      (hasKeyO data "instanceUrl" = false ∨ hasKeyO data "sessionId" = false) →
      proxy_record_operations object_name record_id m data tr =
        ⟨⟨400, .json (errJson "Missing required fields: instanceUrl, sessionId")⟩, []⟩) ∧
    (∀ (data : Option Json) (tr : TransportResult),
      (hasKeyO data "instance_url" = false ∨ hasKeyO data "endpoint" = false ∨
        hasKeyO data "auth_token" = false) →
      general_proxy data tr =
        ⟨⟨400, .json (errJson "Missing required fields: instance_url, endpoint, auth_token")⟩, []⟩) := by
  refine ⟨?_, ?_, ?_, ?_, ?_⟩
  · rintro data tr (h | h | h) <;> simp [proxy_query, h]
  · rintro object_name data tr (h | h) <;> simp [proxy_describe, h]
  · rintro object_name data tr (h | h | h) <;> simp [proxy_create_record, h]
  · rintro object_name record_id m data tr h
    have hd : hasKey (if pyTruthyO data then data.getD .null else Json.obj [])
        "instanceUrl" = false ∨
        hasKey (if pyTruthyO data then data.getD .null else Json.obj [])
        "sessionId" = false := by
      cases hp : pyTruthyO data
      · simp [hasKey]
      · simpa [hasKeyO] using h
    rcases hd with hd | hd <;> simp [proxy_record_operations, hd]
  · rintro data tr (h | h | h) <;> simp [general_proxy, h]

/-- Witness for C1: the spec's scenario. `POST /api/sobjects/Account` with
`instanceUrl` and `sessionId` but no `recordData` yields 400 with exactly
the body naming the three required fields, and no outbound call. -/
theorem c1_missing_fields_reject_witness :
    proxy_create_record "Account"
      (some (Json.obj [("instanceUrl", .str "https://x.my.salesforce.com"),
        ("sessionId", .str "abc123")]))
      (.ok ⟨200, "", none⟩) =
      ⟨⟨400, .json (errJson "Missing required fields: instanceUrl, sessionId, recordData")⟩, []⟩ :=
  c1_missing_fields_reject.2.2.1 "Account" _ _ (Or.inr (Or.inr (by decide)))

/-- C2 counterexample: the query route treats only upstream status 200 as
success (`if response.status_code == 200`), so an upstream 201 with the
valid JSON body `[1]` is not passed through: the proxy echoes status 201
(not 200) with an error object wrapping the raw text. -/
theorem c2_passthrough_cex :
    (proxy_query (some (Json.obj [("query", .str "SELECT Id FROM Account"),
        ("instanceUrl", .str "https://x.my.salesforce.com"),
        ("sessionId", .str "abc123")]))
      (.ok ⟨201, "[1]", some (.arr [.num 1])⟩)).response.status ≠ 200 ∧
    (proxy_query (some (Json.obj [("query", .str "SELECT Id FROM Account"),
        ("instanceUrl", .str "https://x.my.salesforce.com"),
        ("sessionId", .str "abc123")]))
      (.ok ⟨201, "[1]", some (.arr [.num 1])⟩)).response =
      ⟨201, .json (Json.obj [("error", .str "Salesforce API error: 201"),
        ("details", .str "[1]")])⟩ :=
  ⟨by decide, rfl⟩

/-- C2 amended: verbatim passthrough with proxy status 200 holds exactly on
each route's own success set: query and describe only on upstream 200;
create record and the generic proxy on upstream 200 or 201; record
get/update/delete on upstream 200 with a nonempty body. -/
theorem c2_passthrough_amended :
    (∀ (data : Option Json) (resp : SfResponse) (j : Json),
      hasKeyO data "query" = true → hasKeyO data "instanceUrl" = true →
      hasKeyO data "sessionId" = true →
      resp.status = 200 → resp.jsonBody = some j →
      (proxy_query data (.ok resp)).response = ⟨200, .json j⟩) ∧
    (∀ (object_name : String) (data : Option Json) (resp : SfResponse) (j : Json),
      hasKeyO data "instanceUrl" = true → hasKeyO data "sessionId" = true →
      resp.status = 200 → resp.jsonBody = some j →
      (proxy_describe object_name data (.ok resp)).response = ⟨200, .json j⟩) ∧
    (∀ (object_name : String) (data : Option Json) (resp : SfResponse) (j : Json),
      hasKeyO data "instanceUrl" = true → hasKeyO data "sessionId" = true →
      hasKeyO data "recordData" = true →
      (resp.status = 200 ∨ resp.status = 201) → resp.jsonBody = some j →
      (proxy_create_record object_name data (.ok resp)).response = ⟨200, .json j⟩) ∧
    (∀ (object_name record_id : String) (m : RecordMethod) (data : Option Json)
        (resp : SfResponse) (j : Json),
      hasKeyO data "instanceUrl" = true → hasKeyO data "sessionId" = true →
      resp.status = 200 → resp.text ≠ "" → resp.jsonBody = some j →
      (proxy_record_operations object_name record_id m data (.ok resp)).response =
        ⟨200, .json j⟩) ∧
    (∀ (data : Option Json) (resp : SfResponse) (j : Json),
      hasKeyO data "instance_url" = true → hasKeyO data "endpoint" = true →
      hasKeyO data "auth_token" = true → hasKeyO data "method" = false →
      (resp.status = 200 ∨ resp.status = 201) → resp.jsonBody = some j →
      (general_proxy data (.ok resp)).response = ⟨200, .json j⟩) := by
  refine ⟨?_, ?_, ?_, ?_, ?_⟩
  · intro data resp j h1 h2 h3 hst hjb
    have ht := pyTruthyO_of_hasKeyO data "query" h1
    simp [proxy_query, h1, h2, h3, ht, hst, hjb]
  · intro object_name data resp j h1 h2 hst hjb
    have ht := pyTruthyO_of_hasKeyO data "instanceUrl" h1
    simp [proxy_describe, h1, h2, ht, hst, hjb]
  · intro object_name data resp j h1 h2 h3 hst hjb
    have ht := pyTruthyO_of_hasKeyO data "instanceUrl" h1
    rcases hst with hst | hst <;>
      simp [proxy_create_record, h1, h2, h3, ht, hst, hjb]
  · intro object_name record_id m data resp j h1 h2 hst htext hjb
    have ht := pyTruthyO_of_hasKeyO data "instanceUrl" h1
    have htx : (resp.text == "") = false := beq_eq_false_iff_ne.mpr htext
    simp [hasKeyO] at h1 h2
    simp [proxy_record_operations, ht, h1, h2, hst, hjb, bne, htx]
  · intro data resp j h1 h2 h3 hm hst hjb
    have ht := pyTruthyO_of_hasKeyO data "instance_url" h1
    simp [hasKeyO] at hm
    rcases hst with hst | hst <;>
      simp [general_proxy, h1, h2, h3, ht, hm, generalDispatch, hst, hjb,
        show pyUpper "GET" = "GET" from rfl]

/-- Witness for C2 amended: the spec's own query scenario with upstream
200 and the valid JSON body `[1]` is passed through verbatim with proxy
status 200. -/
theorem c2_passthrough_amended_witness :
    (proxy_query (some (Json.obj [("query", .str "SELECT Id FROM Account"),
        ("instanceUrl", .str "https://x.my.salesforce.com"),
        ("sessionId", .str "abc123")]))
      (.ok ⟨200, "[1]", some (.arr [.num 1])⟩)).response =
      ⟨200, .json (.arr [.num 1])⟩ :=
  c2_passthrough_amended.1 _ _ _ rfl rfl rfl rfl rfl

/-- C3 counterexample: on the query route an upstream 400 whose body is
the parseable JSON `[1]` is echoed with the raw text in `details`
(`"details": response.text`), not the parsed JSON value: the four
record-style routes never parse the upstream error body. -/
theorem c3_error_details_cex :
    (proxy_query (some (Json.obj [("query", .str "SELECT Id FROM Account"),
        ("instanceUrl", .str "https://x.my.salesforce.com"),
        ("sessionId", .str "abc123")]))
      (.ok ⟨400, "[1]", some (.arr [.num 1])⟩)).response =
      ⟨400, .json (Json.obj [("error", .str "Salesforce API error: 400"),
        ("details", .str "[1]")])⟩ ∧
    Json.str "[1]" ≠ Json.arr [Json.num 1] :=
  ⟨rfl, by intro h; cases h⟩

/-- C3 amended: for every operation the proxy echoes the upstream non-2xx
status verbatim and includes the upstream body; the generic proxy route
includes it as parsed JSON when parseable (else as raw text in `message`),
while the four record-style routes always include it as raw text in
`details`. -/
theorem c3_error_echo_amended :
    (∀ (data : Option Json) (resp : SfResponse),
      hasKeyO data "query" = true → hasKeyO data "instanceUrl" = true →
      hasKeyO data "sessionId" = true →
      ¬ (200 ≤ resp.status ∧ resp.status < 300) →
      (proxy_query data (.ok resp)).response =
        ⟨resp.status, .json (Json.obj
          [("error", .str ("Salesforce API error: " ++ toString resp.status)),
           ("details", .str resp.text)])⟩) ∧
    (∀ (object_name : String) (data : Option Json) (resp : SfResponse),
      hasKeyO data "instanceUrl" = true → hasKeyO data "sessionId" = true →
      ¬ (200 ≤ resp.status ∧ resp.status < 300) →
      (proxy_describe object_name data (.ok resp)).response =
        ⟨resp.status, .json (Json.obj
          [("error", .str ("Salesforce API error: " ++ toString resp.status)),
           ("details", .str resp.text)])⟩) ∧
    (∀ (object_name : String) (data : Option Json) (resp : SfResponse),
      hasKeyO data "instanceUrl" = true → hasKeyO data "sessionId" = true →
      hasKeyO data "recordData" = true →
      ¬ (200 ≤ resp.status ∧ resp.status < 300) →
      (proxy_create_record object_name data (.ok resp)).response =
        ⟨resp.status, .json (Json.obj
          [("error", .str ("Salesforce API error: " ++ toString resp.status)),
           ("details", .str resp.text)])⟩) ∧
    (∀ (object_name record_id : String) (m : RecordMethod) (data : Option Json)
        (resp : SfResponse),
      hasKeyO data "instanceUrl" = true → hasKeyO data "sessionId" = true →
      ¬ (200 ≤ resp.status ∧ resp.status < 300) →
      (proxy_record_operations object_name record_id m data (.ok resp)).response =
        ⟨resp.status, .json (Json.obj
          [("error", .str ("Salesforce API error: " ++ toString resp.status)),
           ("details", .str resp.text)])⟩) ∧
    (∀ (data : Option Json) (resp : SfResponse),
      hasKeyO data "instance_url" = true → hasKeyO data "endpoint" = true →
      hasKeyO data "auth_token" = true → hasKeyO data "method" = false →
      ¬ (200 ≤ resp.status ∧ resp.status < 300) →
      (resp.jsonBody = none →
        (general_proxy data (.ok resp)).response =
          ⟨resp.status, .json (Json.obj
            [("error", .str "Salesforce API error"),
             ("status_code", .num resp.status),
             ("message", .str resp.text)])⟩) ∧
      (∀ j, resp.jsonBody = some j →
        (general_proxy data (.ok resp)).response =
          ⟨resp.status, .json (Json.obj
            [("error", .str "Salesforce API error"),
             ("status_code", .num resp.status),
             ("details", j)])⟩)) := by
  refine ⟨?_, ?_, ?_, ?_, ?_⟩
  · intro data resp h1 h2 h3 h2xx
    have ht := pyTruthyO_of_hasKeyO data "query" h1
    have hne : (resp.status == 200) = false :=
      beq_eq_false_iff_ne.mpr (by omega)
    simp [proxy_query, h1, h2, h3, ht, hne]
  · intro object_name data resp h1 h2 h2xx
    have ht := pyTruthyO_of_hasKeyO data "instanceUrl" h1
    have hne : (resp.status == 200) = false :=
      beq_eq_false_iff_ne.mpr (by omega)
    simp [proxy_describe, h1, h2, ht, hne]
  · intro object_name data resp h1 h2 h3 h2xx
    have ht := pyTruthyO_of_hasKeyO data "instanceUrl" h1
    have hne : (resp.status == 200) = false :=
      beq_eq_false_iff_ne.mpr (by omega)
    have hne1 : (resp.status == 201) = false :=
      beq_eq_false_iff_ne.mpr (by omega)
    simp [proxy_create_record, h1, h2, h3, ht, hne, hne1]
  · intro object_name record_id m data resp h1 h2 h2xx
    have ht := pyTruthyO_of_hasKeyO data "instanceUrl" h1
    have hne : (resp.status == 200) = false :=
      beq_eq_false_iff_ne.mpr (by omega)
    have hne4 : (resp.status == 204) = false :=
      beq_eq_false_iff_ne.mpr (by omega)
    simp [hasKeyO] at h1 h2
    simp [proxy_record_operations, ht, h1, h2, hne, hne4]
  · intro data resp h1 h2 h3 hm h2xx
    have ht := pyTruthyO_of_hasKeyO data "instance_url" h1
    have hne : (resp.status == 200) = false :=
      beq_eq_false_iff_ne.mpr (by omega)
    have hne1 : (resp.status == 201) = false :=
      beq_eq_false_iff_ne.mpr (by omega)
    simp [hasKeyO] at hm
    constructor
    · intro hjb
      simp [general_proxy, h1, h2, h3, ht, hm, generalDispatch, hne, hne1, hjb,
        show pyUpper "GET" = "GET" from rfl]
    · intro j hjb
      simp [general_proxy, h1, h2, h3, ht, hm, generalDispatch, hne, hne1, hjb,
        show pyUpper "GET" = "GET" from rfl]

/-- Witness for C3 amended: upstream 404 with the unparseable body
`NotFound` on the query route is echoed as status 404 with the raw text in
`details`. -/
theorem c3_error_echo_amended_witness :
    (proxy_query (some (Json.obj [("query", .str "SELECT Id FROM Account"),
        ("instanceUrl", .str "https://x.my.salesforce.com"),
        ("sessionId", .str "abc123")]))
      (.ok ⟨404, "NotFound", none⟩)).response =
      ⟨404, .json (Json.obj [("error", .str "Salesforce API error: 404"),
        ("details", .str "NotFound")])⟩ :=
  c3_error_echo_amended.1 _ _ rfl rfl rfl (by decide)

/-- C4: on the record get/update/delete route an upstream 204 (whose body
is empty, as Python's HTTP client never delivers content for a 204) or an
upstream 200 with an empty body yields exactly the JSON body
`{"success": true}`. -/
theorem c4_empty_success_sentinel :
    ∀ (object_name record_id : String) (m : RecordMethod) (data : Option Json)
      (resp : SfResponse),
      hasKeyO data "instanceUrl" = true → hasKeyO data "sessionId" = true →
      (resp.status = 204 ∨ (resp.status = 200 ∧ resp.text = "")) →
      (resp.status = 204 → resp.text = "") →
      (proxy_record_operations object_name record_id m data (.ok resp)).response =
        ⟨200, .json (Json.obj [("success", .bool true)])⟩ := by
  intro object_name record_id m data resp h1 h2 hst hc
  have ht := pyTruthyO_of_hasKeyO data "instanceUrl" h1
  simp [hasKeyO] at h1 h2
  have htext : resp.text = "" := by
    rcases hst with h | ⟨_, h⟩
    · exact hc h
    · exact h
  rcases hst with h | ⟨h, _⟩ <;>
    simp [proxy_record_operations, ht, h1, h2, h, htext, bne]

/-- Witness for C4: DELETE of a record with upstream 204 and empty body
returns exactly the success sentinel. -/
theorem c4_empty_success_sentinel_witness :
    (proxy_record_operations "Account" "001000000000001" .delete
      (some (Json.obj [("instanceUrl", .str "https://x.my.salesforce.com"),
        ("sessionId", .str "abc123")]))
      (.ok ⟨204, "", none⟩)).response =
      ⟨200, .json (Json.obj [("success", .bool true)])⟩ :=
  c4_empty_success_sentinel "Account" "001000000000001" .delete _ _
    rfl rfl (Or.inl rfl) (fun _ => rfl)

/-- C5 counterexample: the create-record route has no `ProxyError` handler
(only query and describe do); a `ProxyError` there is caught by the outer
`except RequestException` and answered with 500, not 403. -/
theorem c5_egress_403_cex :
    (proxy_create_record "Account"
      (some (Json.obj [("instanceUrl", .str "https://x.my.salesforce.com"),
        ("sessionId", .str "abc123"), ("recordData", .obj [("Name", .str "Acme")])]))
      (.exc ⟨true, false, "Cannot connect to proxy", "ProxyError"⟩)).response.status = 500 ∧
    (proxy_create_record "Account"
      (some (Json.obj [("instanceUrl", .str "https://x.my.salesforce.com"),
        ("sessionId", .str "abc123"), ("recordData", .obj [("Name", .str "Acme")])]))
      (.exc ⟨true, false, "Cannot connect to proxy", "ProxyError"⟩)).response.status ≠ 403 :=
  ⟨rfl, by decide⟩

/-- C5 amended: only the query and describe routes answer a `ProxyError`
with 403 and the restriction explanation plus remediation hint; the
create-record, record get/update/delete and generic proxy routes answer it
with a generic 500 error. -/
theorem c5_egress_403_amended :
    (∀ (data : Option Json) (e : RequestExc),
      hasKeyO data "query" = true → hasKeyO data "instanceUrl" = true →
      hasKeyO data "sessionId" = true → e.isProxyError = true →
      (proxy_query data (.exc e)).response =
        ⟨403, .json (Json.obj
          [("error", .str "External API access restricted"),
           ("message", .str "PythonAnywhere free tier doesn\x27t allow external HTTPS requests to Salesforce. You need to upgrade to a paid plan."),
           ("details", .str e.msg),
           ("solution", .str "Upgrade to PythonAnywhere Hacker plan ($5/month) to enable external API calls")])⟩) ∧
    (∀ (object_name : String) (data : Option Json) (e : RequestExc),
      hasKeyO data "instanceUrl" = true → hasKeyO data "sessionId" = true →
      e.isProxyError = true →
      (proxy_describe object_name data (.exc e)).response =
        ⟨403, .json (Json.obj
          [("error", .str "External API access restricted"),
           ("message", .str "PythonAnywhere free tier doesn\x27t allow external HTTPS requests to Salesforce. You need to upgrade to a paid plan."),
           ("details", .str e.msg),
           ("solution", .str "Upgrade to PythonAnywhere Hacker plan ($5/month) to enable external API calls")])⟩) ∧
    (∀ (object_name : String) (data : Option Json) (e : RequestExc),
      hasKeyO data "instanceUrl" = true → hasKeyO data "sessionId" = true →
      hasKeyO data "recordData" = true →
      e.isProxyError = true → e.isTimeout = false →
      (proxy_create_record object_name data (.exc e)).response =
        ⟨500, .json (errJson ("Request error: " ++ e.msg))⟩) ∧
    (∀ (object_name record_id : String) (m : RecordMethod) (data : Option Json)
        (e : RequestExc),
      hasKeyO data "instanceUrl" = true → hasKeyO data "sessionId" = true →
      e.isProxyError = true → e.isTimeout = false →
      (proxy_record_operations object_name record_id m data (.exc e)).response =
        ⟨500, .json (errJson ("Request error: " ++ e.msg))⟩) ∧
    (∀ (data : Option Json) (e : RequestExc),
      hasKeyO data "instance_url" = true → hasKeyO data "endpoint" = true →
      hasKeyO data "auth_token" = true → hasKeyO data "method" = false →
      e.isProxyError = true → e.isTimeout = false →
      (general_proxy data (.exc e)).response =
        ⟨500, .json (errJson ("Request failed: " ++ e.msg))⟩) := by
  refine ⟨?_, ?_, ?_, ?_, ?_⟩
  · intro data e h1 h2 h3 hp
    have ht := pyTruthyO_of_hasKeyO data "query" h1
    simp [proxy_query, h1, h2, h3, ht, hp]
  · intro object_name data e h1 h2 hp
    have ht := pyTruthyO_of_hasKeyO data "instanceUrl" h1
    simp [proxy_describe, h1, h2, ht, hp]
  · intro object_name data e h1 h2 h3 hp hti
    have ht := pyTruthyO_of_hasKeyO data "instanceUrl" h1
    simp [proxy_create_record, h1, h2, h3, ht, hti]
  · intro object_name record_id m data e h1 h2 hp hti
    have ht := pyTruthyO_of_hasKeyO data "instanceUrl" h1
    simp [hasKeyO] at h1 h2
    simp [proxy_record_operations, ht, h1, h2, hti]
  · intro data e h1 h2 h3 hm hp hti
    have ht := pyTruthyO_of_hasKeyO data "instance_url" h1
    simp [hasKeyO] at hm
    simp [general_proxy, h1, h2, h3, ht, hm, generalDispatch, hti,
      show pyUpper "GET" = "GET" from rfl]

/-- Witness for C5 amended: a `ProxyError` on the query route yields 403
with the restriction explanation and remediation hint. -/
theorem c5_egress_403_amended_witness :
    (proxy_query (some (Json.obj [("query", .str "SELECT Id FROM Account"),
        ("instanceUrl", .str "https://x.my.salesforce.com"),
        ("sessionId", .str "abc123")]))
      (.exc ⟨true, false, "Cannot connect to proxy", "ProxyError"⟩)).response =
      ⟨403, .json (Json.obj
        [("error", .str "External API access restricted"),
         ("message", .str "PythonAnywhere free tier doesn\x27t allow external HTTPS requests to Salesforce. You need to upgrade to a paid plan."),
         ("details", .str "Cannot connect to proxy"),
         ("solution", .str "Upgrade to PythonAnywhere Hacker plan ($5/month) to enable external API calls")])⟩ :=
  c5_egress_403_amended.1 _ _ rfl rfl rfl rfl

/-- C6: evaluation of each route at an upstream read timeout. On the query
and describe routes the dedicated `except Timeout` (504) clause is dead
code — the inner generic `except RequestException` catches the timeout
first and answers 500 `Network error` — while the create and record routes
answer 504 and the generic route 408; every body carries the key `error`. -/
theorem c6_timeout_status_eval :
    (proxy_query (some (Json.obj [("query", .str "SELECT Id FROM Account"),
        ("instanceUrl", .str "https://x.my.salesforce.com"),
        ("sessionId", .str "abc123")]))
      (.exc ⟨false, true, "timed out", "ReadTimeout"⟩)).response =
      ⟨500, .json (Json.obj [("error", .str "Network error"),
        ("message", .str "timed out"), ("type", .str "ReadTimeout")])⟩ ∧
    (proxy_describe "Account"
      (some (Json.obj [("instanceUrl", .str "https://x.my.salesforce.com"),
        ("sessionId", .str "abc123")]))
      (.exc ⟨false, true, "timed out", "ReadTimeout"⟩)).response =
      ⟨500, .json (Json.obj [("error", .str "Network error"),
        ("message", .str "timed out"), ("type", .str "ReadTimeout")])⟩ ∧
    (proxy_create_record "Account"
      (some (Json.obj [("instanceUrl", .str "https://x.my.salesforce.com"),
        ("sessionId", .str "abc123"), ("recordData", .obj [("Name", .str "Acme")])]))
      (.exc ⟨false, true, "timed out", "ReadTimeout"⟩)).response =
      ⟨504, .json (errJson "Request timeout")⟩ ∧
    (proxy_record_operations "Account" "001000000000001" .get
      (some (Json.obj [("instanceUrl", .str "https://x.my.salesforce.com"),
        ("sessionId", .str "abc123")]))
      (.exc ⟨false, true, "timed out", "ReadTimeout"⟩)).response =
      ⟨504, .json (errJson "Request timeout")⟩ ∧
    (general_proxy (some (Json.obj
        [("instance_url", .str "https://x.my.salesforce.com"),
         ("endpoint", .str "/services/data/v58.0/limits"),
         ("auth_token", .str "abc123")]))
      (.exc ⟨false, true, "timed out", "ReadTimeout"⟩)).response =
      ⟨408, .json (errJson "Request timeout")⟩ :=
  ⟨rfl, rfl, rfl, rfl, rfl⟩

/-! Helper lemmas characterising the outbound calls each handler makes. -/

/-- Any call the generic dispatch records is the call it was given. -/
theorem generalDispatch_mem_calls (call : OutboundCall) (tr : TransportResult)
    (c : OutboundCall) (hc : c ∈ (generalDispatch call tr).calls) : c = call := by
  rcases tr with resp | e
  · rcases hj : resp.jsonBody with _ | j <;>
      rcases hs2 : resp.status == 200 <;>
      rcases hs1 : resp.status == 201 <;>
      simp [generalDispatch, hj, hs2, hs1] at hc <;>
      exact hc
  · rcases hti : e.isTimeout <;>
      simp [generalDispatch, hti] at hc <;>
      exact hc

/-- Any outbound call of the query route is the GET against
`{instanceUrl}/services/data/v58.0/query/` with the bearer headers and the
query string parameter. -/
theorem mem_calls_query (data : Option Json) (tr : TransportResult)
    (c : OutboundCall) (hc : c ∈ (proxy_query data tr).calls) :
    c = ⟨"GET", pyStr (jGetO data "instanceUrl") ++ "/services/data/" ++
      SALESFORCE_API_VERSION ++ "/query/",
      bearerHeaders (jGetO data "sessionId"),
      [("q", pyStr (jGetO data "query"))], none⟩ := by
  by_cases hv : (!pyTruthyO data || !hasKeyO data "query" ||
      !hasKeyO data "instanceUrl" || !hasKeyO data "sessionId") = true
  · simp only [proxy_query] at hc
    rw [if_pos hv] at hc
    simp at hc
  · rcases tr with resp | e
    · rcases hj : resp.jsonBody with _ | j <;>
        rcases hs : resp.status == 200 <;>
        (simp only [proxy_query] at hc; rw [if_neg hv] at hc;
         simp [hj, hs, jGetO] at hc; simp [jGetO, hc])
    · rcases hp : e.isProxyError <;>
        (simp only [proxy_query] at hc; rw [if_neg hv] at hc;
         simp [hp, jGetO] at hc; simp [jGetO, hc])

/-- Any outbound call of the describe route is the GET against
`.../sobjects/{object_name}/describe/` with the bearer headers. -/
theorem mem_calls_describe (object_name : String) (data : Option Json)
    (tr : TransportResult) (c : OutboundCall)
    (hc : c ∈ (proxy_describe object_name data tr).calls) :
    c = ⟨"GET", pyStr (jGetO data "instanceUrl") ++ "/services/data/" ++
      SALESFORCE_API_VERSION ++ "/sobjects/" ++ object_name ++ "/describe/",
      bearerHeaders (jGetO data "sessionId"), [], none⟩ := by
  by_cases hv : (!pyTruthyO data || !hasKeyO data "instanceUrl" ||
      !hasKeyO data "sessionId") = true
  · simp only [proxy_describe] at hc
    rw [if_pos hv] at hc
    simp at hc
  · rcases tr with resp | e
    · rcases hj : resp.jsonBody with _ | j <;>
        rcases hs : resp.status == 200 <;>
        (simp only [proxy_describe] at hc; rw [if_neg hv] at hc;
         simp [hj, hs, jGetO] at hc; simp [jGetO, hc])
    · rcases hp : e.isProxyError <;>
        (simp only [proxy_describe] at hc; rw [if_neg hv] at hc;
         simp [hp, jGetO] at hc; simp [jGetO, hc])

/-- Any outbound call of the create-record route is the POST against
`.../sobjects/{object_name}/` carrying `recordData` as its JSON body. -/
theorem mem_calls_create (object_name : String) (data : Option Json)
    (tr : TransportResult) (c : OutboundCall)
    (hc : c ∈ (proxy_create_record object_name data tr).calls) :
    c = ⟨"POST", pyStr (jGetO data "instanceUrl") ++ "/services/data/" ++
      SALESFORCE_API_VERSION ++ "/sobjects/" ++ object_name ++ "/",
      bearerHeaders (jGetO data "sessionId"), [],
      some (jGetO data "recordData")⟩ := by
  by_cases hv : (!pyTruthyO data || !hasKeyO data "instanceUrl" ||
      !hasKeyO data "sessionId" || !hasKeyO data "recordData") = true
  · simp only [proxy_create_record] at hc
    rw [if_pos hv] at hc
    simp at hc
  · rcases tr with resp | e
    · rcases hj : resp.jsonBody with _ | j <;>
        rcases hs2 : resp.status == 200 <;>
        rcases hs1 : resp.status == 201 <;>
        (simp only [proxy_create_record] at hc; rw [if_neg hv] at hc;
         simp [hj, hs2, hs1, jGetO] at hc; simp [jGetO, hc])
    · rcases hti : e.isTimeout <;>
        (simp only [proxy_create_record] at hc; rw [if_neg hv] at hc;
         simp [hti, jGetO] at hc; simp [jGetO, hc])

/-- A falsy payload is replaced by the empty dict, which fails the
record-route validation, so no call is made. -/
theorem record_ops_calls_nil_of_falsy (object_name record_id : String)
    (m : RecordMethod) (data : Option Json) (tr : TransportResult)
    (h : pyTruthyO data = false) :
    (proxy_record_operations object_name record_id m data tr).calls = [] := by
  simp [proxy_record_operations, h, hasKey]

/-- Any outbound call of the record get/update/delete route uses the
inbound method against `.../sobjects/{object_name}/{record_id}` with the
bearer headers; PATCH carries `recordData` (defaulting to the empty dict)
as its body, GET and DELETE carry none. -/
theorem mem_calls_record_ops (object_name record_id : String)
    (m : RecordMethod) (data : Option Json) (tr : TransportResult)
    (c : OutboundCall)
    (hc : c ∈ (proxy_record_operations object_name record_id m data tr).calls) :
    c = ⟨m.name, pyStr (jGetO data "instanceUrl") ++ "/services/data/" ++
      SALESFORCE_API_VERSION ++ "/sobjects/" ++ object_name ++ "/" ++ record_id,
      bearerHeaders (jGetO data "sessionId"), [],
      match m with
      | .patch => some (if hasKeyO data "recordData" then jGetO data "recordData"
          else Json.obj [])
      | _ => none⟩ := by
  rcases hptr : pyTruthyO data with _ | _
  · rw [record_ops_calls_nil_of_falsy object_name record_id m data tr hptr] at hc
    simp at hc
  · by_cases hv : (!hasKey (data.getD Json.null) "instanceUrl" ||
        !hasKey (data.getD Json.null) "sessionId") = true
    · simp only [proxy_record_operations, hptr, if_true] at hc
      rw [if_pos hv] at hc
      simp at hc
    · cases m <;> rcases tr with resp | e <;>
        first
        | (rcases hti : e.isTimeout <;>
            (simp only [proxy_record_operations, hptr, if_true] at hc;
             rw [if_neg hv] at hc;
             simp [hti, jGetO, hasKeyO, RecordMethod.name] at hc;
             simp [jGetO, hasKeyO, RecordMethod.name, hc]))
        | (rcases hj : resp.jsonBody with _ | j <;>
            rcases hs2 : resp.status == 200 <;>
            rcases hs4 : resp.status == 204 <;>
            rcases htx : resp.text == "" <;>
            (simp only [proxy_record_operations, hptr, if_true] at hc;
             rw [if_neg hv] at hc;
             simp [hj, hs2, hs4, htx, bne, jGetO, hasKeyO, RecordMethod.name] at hc;
             simp [jGetO, hasKeyO, RecordMethod.name, hc]))

/-- Any outbound call of the generic route carries the bearer headers built
from the request's `auth_token`. -/
theorem general_proxy_call_headers (data : Option Json) (tr : TransportResult)
    (c : OutboundCall) (hc : c ∈ (general_proxy data tr).calls) :
    c.headers = bearerHeaders (jGetO data "auth_token") := by
  by_cases hv : (!pyTruthyO data || !hasKeyO data "instance_url" ||
      !hasKeyO data "endpoint" || !hasKeyO data "auth_token") = true
  · simp only [general_proxy] at hc
    rw [if_pos hv] at hc
    simp at hc
  · simp only [general_proxy] at hc
    rw [if_neg hv] at hc
    rcases hmv : (if hasKey (data.getD Json.null) "method"
        then jGet (data.getD Json.null) "method" else Json.str "GET")
      with _ | b | n | ms | xs | fs <;>
      rw [hmv] at hc
    · simp at hc
    · simp at hc
    · simp at hc
    · rcases hG : pyUpper ms == "GET" <;>
        rcases hP : pyUpper ms == "POST" <;>
        rcases hU : pyUpper ms == "PUT" <;>
        rcases hD : pyUpper ms == "DELETE" <;>
        simp [hG, hP, hU, hD] at hc <;>
        (rw [generalDispatch_mem_calls _ _ _ hc]; simp [jGetO])
    · simp at hc
    · simp at hc

/-- When `instanceUrl` and `sessionId` are present the record route always
makes exactly one outbound call. -/
theorem record_ops_calls_eq (object_name record_id : String) (m : RecordMethod)
    (data : Option Json) (tr : TransportResult)
    (h1 : hasKeyO data "instanceUrl" = true) (h2 : hasKeyO data "sessionId" = true) :
    (proxy_record_operations object_name record_id m data tr).calls =
      [⟨m.name, pyStr (jGetO data "instanceUrl") ++ "/services/data/" ++
        SALESFORCE_API_VERSION ++ "/sobjects/" ++ object_name ++ "/" ++ record_id,
        bearerHeaders (jGetO data "sessionId"), [],
        match m with
        | .patch => some (if hasKeyO data "recordData" then jGetO data "recordData"
            else Json.obj [])
        | _ => none⟩] := by
  have ht := pyTruthyO_of_hasKeyO data "instanceUrl" h1
  have h1' := h1
  have h2' := h2
  simp only [hasKeyO] at h1' h2'
  cases m <;> rcases tr with resp | e <;>
    first
    | (rcases hti : e.isTimeout <;>
        simp [proxy_record_operations, ht, h1', h2', jGetO, hasKeyO,
          RecordMethod.name, hti])
    | (rcases hj : resp.jsonBody with _ | j <;>
        rcases hs2 : resp.status == 200 <;>
        rcases hs4 : resp.status == 204 <;>
        rcases htx : resp.text == "" <;>
        simp [proxy_record_operations, ht, h1', h2', jGetO, hasKeyO,
          RecordMethod.name, bne, hj, hs2, hs4, htx])

/-- C7 counterexample: a PATCH carrying `instanceUrl` and `sessionId` but
no `recordData` is not rejected: validation passes, an outbound PATCH is
made with the empty dict as body, and (upstream 204) the proxy answers the
success sentinel rather than any 400 validation error. -/
theorem c7_patch_missing_recorddata_cex :
    (proxy_record_operations "Account" "001000000000001" .patch
      (some (Json.obj [("instanceUrl", .str "https://x.my.salesforce.com"),
        ("sessionId", .str "abc123")]))
      (.ok ⟨204, "", none⟩)) =
      ⟨⟨200, .json (Json.obj [("success", .bool true)])⟩,
       [⟨"PATCH",
         "https://x.my.salesforce.com/services/data/v58.0/sobjects/Account/001000000000001",
         [("Authorization", "Bearer abc123"), ("Content-Type", "application/json"),
          ("Accept", "application/json")], [], some (Json.obj [])⟩]⟩ ∧
    (proxy_record_operations "Account" "001000000000001" .patch
      (some (Json.obj [("instanceUrl", .str "https://x.my.salesforce.com"),
        ("sessionId", .str "abc123")]))
      (.ok ⟨204, "", none⟩)).response.status ≠ 400 :=
  ⟨rfl, by decide⟩

/-- C7 amended: the update (PATCH) operation does not require `recordData`:
with `instanceUrl` and `sessionId` present and `recordData` absent,
validation passes and exactly one outbound PATCH is attempted, carrying the
empty JSON object as its body (`data.get('recordData', {})`). -/
theorem c7_patch_missing_recorddata_amended :
    ∀ (object_name record_id : String) (data : Option Json) (tr : TransportResult),
      hasKeyO data "instanceUrl" = true → hasKeyO data "sessionId" = true →
      hasKeyO data "recordData" = false →
      (proxy_record_operations object_name record_id .patch data tr).calls =
        [⟨"PATCH", pyStr (jGetO data "instanceUrl") ++ "/services/data/" ++
          SALESFORCE_API_VERSION ++ "/sobjects/" ++ object_name ++ "/" ++ record_id,
          bearerHeaders (jGetO data "sessionId"), [], some (Json.obj [])⟩] := by
  intro object_name record_id data tr h1 h2 hrd
  rw [record_ops_calls_eq object_name record_id .patch data tr h1 h2]
  simp [RecordMethod.name, hrd]

/-- Witness for C7 amended: the concrete PATCH of the counterexample
issues exactly one outbound PATCH with the empty dict body. -/
theorem c7_patch_missing_recorddata_amended_witness :
    (proxy_record_operations "Account" "001000000000001" .patch
      (some (Json.obj [("instanceUrl", .str "https://x.my.salesforce.com"),
        ("sessionId", .str "abc123")]))
      (.exc ⟨false, true, "timed out", "ReadTimeout"⟩)).calls =
      [⟨"PATCH",
        "https://x.my.salesforce.com/services/data/v58.0/sobjects/Account/001000000000001",
        [("Authorization", "Bearer abc123"), ("Content-Type", "application/json"),
         ("Accept", "application/json")], [], some (Json.obj [])⟩] :=
  c7_patch_missing_recorddata_amended "Account" "001000000000001" _ _ rfl rfl rfl

/-- C8: every outbound call of every operation carries exactly the headers
`Authorization: Bearer <credential>` — the credential taken verbatim from
the current inbound request (`sessionId`, or `auth_token` on the generic
route) — plus `Content-Type: application/json` and
`Accept: application/json`. Each handler is a pure function of the inbound
request and the transport outcome, so no credential can persist between
requests. -/
theorem c8_bearer_headers :
    (∀ (data : Option Json) (tr : TransportResult) (s : String) (c : OutboundCall),
      jGetO data "sessionId" = Json.str s → c ∈ (proxy_query data tr).calls →
      c.headers = [("Authorization", "Bearer " ++ s),
        ("Content-Type", "application/json"), ("Accept", "application/json")]) ∧
    (∀ (object_name : String) (data : Option Json) (tr : TransportResult)
        (s : String) (c : OutboundCall),
      jGetO data "sessionId" = Json.str s →
      c ∈ (proxy_describe object_name data tr).calls →
      c.headers = [("Authorization", "Bearer " ++ s),
        ("Content-Type", "application/json"), ("Accept", "application/json")]) ∧
    (∀ (object_name : String) (data : Option Json) (tr : TransportResult)
        (s : String) (c : OutboundCall),
      jGetO data "sessionId" = Json.str s →
      c ∈ (proxy_create_record object_name data tr).calls →
      c.headers = [("Authorization", "Bearer " ++ s),
        ("Content-Type", "application/json"), ("Accept", "application/json")]) ∧
    (∀ (object_name record_id : String) (m : RecordMethod) (data : Option Json)
        (tr : TransportResult) (s : String) (c : OutboundCall),
      jGetO data "sessionId" = Json.str s →
      c ∈ (proxy_record_operations object_name record_id m data tr).calls →
      c.headers = [("Authorization", "Bearer " ++ s),
        ("Content-Type", "application/json"), ("Accept", "application/json")]) ∧
    (∀ (data : Option Json) (tr : TransportResult) (s : String) (c : OutboundCall),
      jGetO data "auth_token" = Json.str s → c ∈ (general_proxy data tr).calls →
      c.headers = [("Authorization", "Bearer " ++ s),
        ("Content-Type", "application/json"), ("Accept", "application/json")]) := by
  refine ⟨?_, ?_, ?_, ?_, ?_⟩
  · intro data tr s c hs hc
    rw [mem_calls_query data tr c hc]
    simp [bearerHeaders, hs, pyStr]
  · intro object_name data tr s c hs hc
    rw [mem_calls_describe object_name data tr c hc]
    simp [bearerHeaders, hs, pyStr]
  · intro object_name data tr s c hs hc
    rw [mem_calls_create object_name data tr c hc]
    simp [bearerHeaders, hs, pyStr]
  · intro object_name record_id m data tr s c hs hc
    rw [mem_calls_record_ops object_name record_id m data tr c hc]
    simp [bearerHeaders, hs, pyStr]
  · intro data tr s c hs hc
    rw [general_proxy_call_headers data tr c hc]
    simp [bearerHeaders, hs, pyStr]

/-- Witness for C8: the query route's outbound call for a concrete request
with `sessionId` `abc123` carries exactly the three headers. -/
theorem c8_bearer_headers_witness :
    (⟨"GET", "https://x.my.salesforce.com/services/data/v58.0/query/",
      [("Authorization", "Bearer abc123"), ("Content-Type", "application/json"),
       ("Accept", "application/json")],
      [("q", "SELECT Id FROM Account")], none⟩ : OutboundCall).headers =
      [("Authorization", "Bearer abc123"), ("Content-Type", "application/json"),
       ("Accept", "application/json")] :=
  c8_bearer_headers.1
    (some (Json.obj [("query", .str "SELECT Id FROM Account"),
      ("instanceUrl", .str "https://x.my.salesforce.com"),
      ("sessionId", .str "abc123")]))
    (.ok ⟨200, "[1]", some (.arr [.num 1])⟩) "abc123" _ rfl
    (List.mem_singleton.mpr rfl)

/-- C9: on the generic route the optional `method` field is upper-cased
before dispatch (defaulting to GET when absent); an upper-cased method
outside GET/POST/PUT/DELETE is rejected with 400 and the body
`Unsupported HTTP method: <METHOD>` without any outbound call, and a
missing `method` dispatches as GET. -/
theorem c9_unsupported_method :
    (∀ (data : Option Json) (tr : TransportResult) (ms : String),
      hasKeyO data "instance_url" = true → hasKeyO data "endpoint" = true →
      hasKeyO data "auth_token" = true →
      hasKeyO data "method" = true → jGetO data "method" = Json.str ms →
      pyUpper ms ≠ "GET" → pyUpper ms ≠ "POST" → pyUpper ms ≠ "PUT" →
      pyUpper ms ≠ "DELETE" →
      general_proxy data tr =
        ⟨⟨400, .json (errJson ("Unsupported HTTP method: " ++ pyUpper ms))⟩, []⟩) ∧
    (∀ (data : Option Json) (tr : TransportResult) (c : OutboundCall),
      hasKeyO data "method" = false → c ∈ (general_proxy data tr).calls →
      c.method = "GET") := by
  constructor
  · intro data tr ms h1 h2 h3 hm hms hG hP hU hD
    have ht := pyTruthyO_of_hasKeyO data "instance_url" h1
    have hmk : hasKey (data.getD Json.null) "method" = true := by
      simpa [hasKeyO] using hm
    have hms' : jGet (data.getD Json.null) "method" = Json.str ms := by
      simpa [jGetO] using hms
    have hG' : (pyUpper ms == "GET") = false := beq_eq_false_iff_ne.mpr hG
    have hP' : (pyUpper ms == "POST") = false := beq_eq_false_iff_ne.mpr hP
    have hU' : (pyUpper ms == "PUT") = false := beq_eq_false_iff_ne.mpr hU
    have hD' : (pyUpper ms == "DELETE") = false := beq_eq_false_iff_ne.mpr hD
    simp [general_proxy, h1, h2, h3, ht, hmk, hms', hG', hP', hU', hD']
  · intro data tr c hm hc
    by_cases hv : (!pyTruthyO data || !hasKeyO data "instance_url" ||
        !hasKeyO data "endpoint" || !hasKeyO data "auth_token") = true
    · simp only [general_proxy] at hc
      rw [if_pos hv] at hc
      simp at hc
    · have hmk : hasKey (data.getD Json.null) "method" = false := by
        simpa [hasKeyO] using hm
      simp only [general_proxy] at hc
      rw [if_neg hv] at hc
      simp only [hmk, if_false, Bool.false_eq_true,
        show pyUpper "GET" = "GET" from rfl] at hc
      simp at hc
      rw [generalDispatch_mem_calls _ _ _ hc]

/-- Witness for C9: a request whose `method` is `patch` is rejected with
400 `Unsupported HTTP method: PATCH` and no outbound call. -/
theorem c9_unsupported_method_witness :
    general_proxy (some (Json.obj
        [("instance_url", .str "https://x.my.salesforce.com"),
         ("endpoint", .str "/services/data/v58.0/limits"),
         ("auth_token", .str "abc123"), ("method", .str "patch")]))
      (.ok ⟨200, "[1]", some (.arr [.num 1])⟩) =
      ⟨⟨400, .json (errJson "Unsupported HTTP method: PATCH")⟩, []⟩ :=
  c9_unsupported_method.1 _ _ "patch" rfl rfl rfl rfl rfl
    (by decide) (by decide) (by decide) (by decide)

/-- C10: on the generic route an upstream 204 is not a success: the proxy
answers HTTP status 204 with an error object carrying
`"error": "Salesforce API error"` and `"status_code": 204`, never the
`{"success": true}` sentinel; and every upstream status other than 200 and
201 takes this error path, echoing the upstream status. -/
theorem c10_generic_204_error :
    (∀ (data : Option Json) (resp : SfResponse),
      hasKeyO data "instance_url" = true → hasKeyO data "endpoint" = true →
      hasKeyO data "auth_token" = true → hasKeyO data "method" = false →
      resp.status = 204 →
      (resp.jsonBody = none →
        (general_proxy data (.ok resp)).response =
          ⟨204, .json (Json.obj [("error", .str "Salesforce API error"),
            ("status_code", .num 204), ("message", .str resp.text)])⟩) ∧
      (∀ j, resp.jsonBody = some j →
        (general_proxy data (.ok resp)).response =
          ⟨204, .json (Json.obj [("error", .str "Salesforce API error"),
            ("status_code", .num 204), ("details", j)])⟩) ∧
      (general_proxy data (.ok resp)).response.body ≠
        .json (Json.obj [("success", .bool true)])) ∧
    (∀ (call : OutboundCall) (resp : SfResponse),
      resp.status ≠ 200 → resp.status ≠ 201 →
      (generalDispatch call (.ok resp)).response.status = resp.status ∧
      (generalDispatch call (.ok resp)).response.body ≠
        .json (Json.obj [("success", .bool true)])) := by
  constructor
  · intro data resp h1 h2 h3 hm hst
    have ht := pyTruthyO_of_hasKeyO data "instance_url" h1
    have hmk : hasKey (data.getD Json.null) "method" = false := by
      simpa [hasKeyO] using hm
    have hne : (resp.status == 200) = false :=
      beq_eq_false_iff_ne.mpr (by omega)
    have hne1 : (resp.status == 201) = false :=
      beq_eq_false_iff_ne.mpr (by omega)
    refine ⟨?_, ?_, ?_⟩
    · intro hjb
      simp [general_proxy, h1, h2, h3, ht, hmk, generalDispatch, hne, hne1,
        hjb, hst, show pyUpper "GET" = "GET" from rfl]
    · intro j hjb
      simp [general_proxy, h1, h2, h3, ht, hmk, generalDispatch, hne, hne1,
        hjb, hst, show pyUpper "GET" = "GET" from rfl]
    · rcases hjb : resp.jsonBody with _ | j <;>
        simp [general_proxy, h1, h2, h3, ht, hmk, generalDispatch, hne, hne1,
          hjb, hst, show pyUpper "GET" = "GET" from rfl]
  · intro call resp hne200 hne201
    have hne : (resp.status == 200) = false := beq_eq_false_iff_ne.mpr hne200
    have hne1 : (resp.status == 201) = false := beq_eq_false_iff_ne.mpr hne201
    rcases hjb : resp.jsonBody with _ | j <;>
      simp [generalDispatch, hne, hne1, hjb]

/-- Witness for C10: upstream 204 with an empty body on the generic route
yields status 204 with the error object, not the success sentinel. -/
theorem c10_generic_204_error_witness :
    (general_proxy (some (Json.obj
        [("instance_url", .str "https://x.my.salesforce.com"),
         ("endpoint", .str "/services/data/v58.0/limits"),
         ("auth_token", .str "abc123")]))
      (.ok ⟨204, "", none⟩)).response =
      ⟨204, .json (Json.obj [("error", .str "Salesforce API error"),
        ("status_code", .num 204), ("message", .str "")])⟩ :=
  (c10_generic_204_error.1 (some (Json.obj
      [("instance_url", .str "https://x.my.salesforce.com"),
       ("endpoint", .str "/services/data/v58.0/limits"),
       ("auth_token", .str "abc123")]))
    ⟨204, "", none⟩ rfl rfl rfl rfl rfl).1 rfl

end SfProxy
